import Mathlib

/-!
Shallow embedding of the client-side upload widget of this repository
(src/script.js and the second near-duplicate variant src/unnamed/part_000),
together with theorems settling the specification's claims about it.

Modelling conventions:
* A `File` object is `FileData` (name and byte size); a `FileList` is a
  `List FileData`.
* The DOM fields the handlers read or write are gathered into explicit state
  records (`WidgetState` for the file-selection part of the page,
  `SubmitState` for the submission / progress part); each event listener
  becomes a state-transformer on the corresponding record.
* JavaScript numbers: all byte counts are `Nat`; the progress value (which the
  code mixes with `Math.random () * 10`) is `ℚ`.  The divisions performed by
  `formatFileSize` are exact in binary floating point (the divisors are powers
  of two and file sizes are below 2 ^ 53), so `Number.prototype.toFixed 2`
  rounds the exact rational value half-up to hundredths; that rounding is
  `toFixed2`.  `Math.floor (Math.log bytes / Math.log 1024)` is the floor
  logarithm `Nat.log 1024 bytes`.
* `parseFloat` of a fixed-2 string followed by string concatenation prints the
  number with trailing fractional zeros removed (`renderHundredths`), while
  part_000's plain `toFixed (2)` keeps them (`fixed2String`).
-/

/-- A `File` as the widget uses it: its `name` and `size` in bytes. -/
structure FileData where
  name : String
  size : Nat
  deriving DecidableEq

/-- The unit-label array `sizes = ['Bytes', 'KB', 'MB', 'GB']` of
`formatFileSize` in src/script.js. -/
def sizes : List String := ["Bytes", "KB", "MB", "GB"]

/-- `(num / den).toFixed 2` for an exactly representable quotient, as the
integer number of hundredths: the nearest multiple of 1/100, ties toward the
larger value (the ECMAScript `toFixed` rule for nonnegative numbers). -/
def toFixed2 (num den : Nat) : Nat := (200 * num + den) / (2 * den)

/-- Printing of `parseFloat (x.toFixed 2)` where `h` is `x` in hundredths:
the integer part, then the fractional digits with trailing zeros dropped. -/
def renderHundredths (h : Nat) : String :=
  if h % 100 = 0 then toString (h / 100)
  else if h % 10 = 0 then toString (h / 100) ++ "." ++ toString (h / 10 % 10)
  else
    toString (h / 100) ++ "." ++ (if h % 100 < 10 then "0" else "")
      ++ toString (h % 100)

/-- `formatFileSize` of src/script.js:
`if (bytes === 0) return '0 Bytes';`
`const i = Math.floor(Math.log(bytes) / Math.log(1024));`
`return parseFloat((bytes / Math.pow(1024, i)).toFixed(2)) + ' ' + sizes[i];`
An out-of-range index into `sizes` yields the JavaScript value `undefined`,
which string concatenation prints as `"undefined"`. -/
def formatFileSize (bytes : Nat) : String :=
  if bytes = 0 then "0 Bytes"
  else
    renderHundredths (toFixed2 bytes (1024 ^ Nat.log 1024 bytes)) ++ " "
      ++ (sizes[Nat.log 1024 bytes]?).getD "undefined"

/-- Modelled from the spec's words, for comparison with `formatFileSize`:
the value scaled by the largest power of 1024 among the four units
Bytes/KB/MB/GB for which the scaled value is at least 1 (for positive `bytes`
that exponent is `min (Nat.log 1024 bytes) 3`), rounded to 2 decimal places,
with zero-byte sizes rendered as `"0 Bytes"` exactly. -/
def spec_formatFileSize (bytes : Nat) : String :=
  if bytes = 0 then "0 Bytes"
  else
    renderHundredths (toFixed2 bytes (1024 ^ min (Nat.log 1024 bytes) 3)) ++ " "
      ++ sizes.getD (min (Nat.log 1024 bytes) 3) "Bytes"

/-- Unfolding of `formatFileSize` once the floor logarithm of a positive byte
count is known. -/
lemma formatFileSize_eq_of_log {bytes i : Nat} (h₁ : 1024 ^ i ≤ bytes)
    (h₂ : bytes < 1024 ^ (i + 1)) :
    formatFileSize bytes =
      renderHundredths (toFixed2 bytes (1024 ^ i)) ++ " "
        ++ (sizes[i]?).getD "undefined" := by
  have hb : bytes ≠ 0 := by
    have : 0 < 1024 ^ i := Nat.pos_pow_of_pos i (by norm_num)
    omega
  have hlog : Nat.log 1024 bytes = i := Nat.log_eq_of_pow_le_of_lt_pow h₁ h₂
  rw [formatFileSize, if_neg hb, hlog]

lemma formatFileSize_zero : formatFileSize 0 = "0 Bytes" := by decide

lemma formatFileSize_one_kb : formatFileSize 1024 = "1 KB" := by
  rw [formatFileSize_eq_of_log (i := 1) (by norm_num) (by norm_num)]; decide

lemma formatFileSize_half_kb : formatFileSize 1536 = "1.5 KB" := by
  rw [formatFileSize_eq_of_log (i := 1) (by norm_num) (by norm_num)]; decide

lemma formatFileSize_one_mb : formatFileSize 1048576 = "1 MB" := by
  rw [formatFileSize_eq_of_log (i := 2) (by norm_num) (by norm_num)]; decide

/-- C1 (amended): for every byte count `b` below 1024 ^ 4, `formatFileSize`
returns the value scaled by the largest power of 1024 (units Bytes, KB, MB,
GB) for which the scaled value is at least 1, rounded to 2 decimal places,
and returns exactly `"0 Bytes"` for `b = 0`; in particular 1024 bytes render
as `"1 KB"`, 1048576 as `"1 MB"` and 1536 as `"1.5 KB"`.  (For
`b ≥ 1024 ^ 4` the unit index leaves the array, see
`formatFileSize_overflow`.) -/
theorem formatFileSize_matches_spec (b : Nat) (hb : b < 1024 ^ 4) :
    formatFileSize b = spec_formatFileSize b ∧ formatFileSize 0 = "0 Bytes" ∧
    formatFileSize 1024 = "1 KB" ∧ formatFileSize 1048576 = "1 MB" ∧
    formatFileSize 1536 = "1.5 KB" := by
  refine ⟨?_, formatFileSize_zero, formatFileSize_one_kb, formatFileSize_one_mb,
    formatFileSize_half_kb⟩
  rcases Nat.eq_zero_or_pos b with rfl | hpos
  · rfl
  · have hb0 : b ≠ 0 := hpos.ne'
    have hlt : Nat.log 1024 b < 4 := Nat.log_lt_of_lt_pow hb0 hb
    have hmin : min (Nat.log 1024 b) 3 = Nat.log 1024 b :=
      Nat.min_eq_left (by omega)
    unfold formatFileSize spec_formatFileSize
    rw [if_neg hb0, if_neg hb0, hmin]
    rcases (by omega :
        Nat.log 1024 b = 0 ∨ Nat.log 1024 b = 1 ∨ Nat.log 1024 b = 2 ∨
          Nat.log 1024 b = 3) with h | h | h | h <;> rw [h] <;> rfl

/-- Witness for `formatFileSize_matches_spec` at the concrete byte count
1536. -/
theorem formatFileSize_matches_spec_witness :
    formatFileSize 1536 = spec_formatFileSize 1536 ∧
    formatFileSize 0 = "0 Bytes" ∧ formatFileSize 1024 = "1 KB" ∧
    formatFileSize 1048576 = "1 MB" ∧ formatFileSize 1536 = "1.5 KB" :=
  formatFileSize_matches_spec 1536 (by norm_num)

/-- Counterexample to C1 as stated for every `b ≥ 0`: at `b = 1024 ^ 4` the
code renders `"1 undefined"` while the spec's formatting yields
`"1024 GB"`. -/
theorem formatFileSize_deviates_at_tib :
    formatFileSize (1024 ^ 4) = "1 undefined" ∧
    spec_formatFileSize (1024 ^ 4) = "1024 GB" ∧
    formatFileSize (1024 ^ 4) ≠ spec_formatFileSize (1024 ^ 4) := by
  have hlog : Nat.log 1024 (1024 ^ 4) = 4 := Nat.log_pow (by norm_num) 4
  have h1 : formatFileSize (1024 ^ 4) = "1 undefined" := by
    unfold formatFileSize
    rw [if_neg (by norm_num), hlog]
    decide
  have h2 : spec_formatFileSize (1024 ^ 4) = "1024 GB" := by
    unfold spec_formatFileSize
    rw [if_neg (by norm_num), hlog]
    decide
  exact ⟨h1, h2, by rw [h1, h2]; decide⟩

/-- C9: for every byte count `b ≥ 1024 ^ 4` the computed unit index is 4 or
more, the lookup into the four-element unit array yields nothing, and the
rendered string ends in `"undefined"` instead of a valid unit label. -/
theorem formatFileSize_overflow (b : Nat) (hb : 1024 ^ 4 ≤ b) :
    4 ≤ Nat.log 1024 b ∧ sizes[Nat.log 1024 b]? = none ∧
    formatFileSize b =
      renderHundredths (toFixed2 b (1024 ^ Nat.log 1024 b)) ++ " "
        ++ "undefined" := by
  have hb0 : b ≠ 0 := by
    have : (0 : Nat) < 1024 ^ 4 := by norm_num
    omega
  have h4 : 4 ≤ Nat.log 1024 b := (Nat.pow_le_iff_le_log (by norm_num) hb0).mp hb
  have hnone : sizes[Nat.log 1024 b]? = none := by
    apply List.getElem?_eq_none
    simp only [sizes, List.length_cons, List.length_nil]
    omega
  refine ⟨h4, hnone, ?_⟩
  unfold formatFileSize
  rw [if_neg hb0, hnone]
  rfl

/-- Witness for `formatFileSize_overflow` at the concrete byte count
`1024 ^ 4`. -/
theorem formatFileSize_overflow_witness :
    4 ≤ Nat.log 1024 (1024 ^ 4) ∧ sizes[Nat.log 1024 (1024 ^ 4)]? = none ∧
    formatFileSize (1024 ^ 4) =
      renderHundredths (toFixed2 (1024 ^ 4) (1024 ^ Nat.log 1024 (1024 ^ 4)))
        ++ " " ++ "undefined" :=
  formatFileSize_overflow (1024 ^ 4) (le_refl _)

/-- The DOM fields of the file-selection part of the page that the listeners
of src/script.js read or write: the hidden file input's `FileList`, the
`file-name` and `file-size` text, and the `display` styles of the `file-info`
block and the upload prompt. -/
structure WidgetState where
  fileInputFiles : List FileData
  fileNameText : String
  fileSizeText : String
  fileInfoDisplay : String
  uploadPromptDisplay : String
  deriving DecidableEq

/-- Modelled from the spec: the fresh-page-load state (no file selected, the
upload prompt visible, the file-info block hidden); the page's HTML is not
under src/, only the handlers that toggle these fields are. -/
def initWidgetState : WidgetState :=
  { fileInputFiles := []
    fileNameText := ""
    fileSizeText := ""
    fileInfoDisplay := "none"
    uploadPromptDisplay := "block" }

/-- `updateFileInfo` of src/script.js: writes the file's name and formatted
size into the summary, shows the `file-info` block and hides the upload
prompt. -/
def updateFileInfo (file : FileData) (s : WidgetState) : WidgetState :=
  { s with
    fileNameText := file.name
    fileSizeText := formatFileSize file.size
    fileInfoDisplay := "flex"
    uploadPromptDisplay := "none" }

/-- `handleFiles` of src/script.js, called by the drop listener with the
drop event's `dataTransfer.files`: when the list is non-empty it renders the
first file's summary and assigns the whole list to the hidden file input;
when the list is empty it does nothing. -/
def handleFiles (files : List FileData) (s : WidgetState) : WidgetState :=
  match files with
  | [] => s
  | file :: rest =>
      { updateFileInfo file s with fileInputFiles := file :: rest }

/-- The `change` listener of the file input in src/script.js: by the time it
fires, the browser has already stored the picked list in the input; the
listener renders the first file's summary when the list is non-empty. -/
def selectViaPicker (files : List FileData) (s : WidgetState) : WidgetState :=
  match files with
  | [] => { s with fileInputFiles := [] }
  | file :: rest => updateFileInfo file { s with fileInputFiles := file :: rest }

/-- The `click` listener of the remove-file button in src/script.js: stops
propagation (the returned `Bool`), clears the file input's value (which
empties its `FileList`), hides the `file-info` block and restores the upload
prompt. -/
def removeSelection (s : WidgetState) : WidgetState × Bool :=
  ({ s with
      fileInputFiles := []
      fileInfoDisplay := "none"
      uploadPromptDisplay := "block" }, true)

/-- The DOM state of the src/unnamed/part_000 variant of the widget: its file
input's `FileList` and the inner HTML of `selectedFileContainer`. -/
structure P0State where
  fileInputFiles : List FileData
  selectedFileHTML : String
  deriving DecidableEq

/-- `(file.size / 1024).toFixed(2)` kept verbatim (part_000's `showFile` does
not `parseFloat` it, so trailing zeros stay): `h` is the value in
hundredths. -/
def fixed2String (h : Nat) : String :=
  toString (h / 100) ++ "." ++ (if h % 100 < 10 then "0" else "")
    ++ toString (h % 100)

/-- `showFile` of src/unnamed/part_000: writes
`<strong>NAME</strong> (SIZE KB)` into the selected-file container, the size
always in KB with two decimals. -/
def showFile (file : FileData) (s : P0State) : P0State :=
  { s with
    selectedFileHTML :=
      "<strong>" ++ file.name ++ "</strong> ("
        ++ fixed2String (toFixed2 file.size 1024) ++ " KB)" }

/-- The drop listener of src/unnamed/part_000: it assigns
`e.dataTransfer.files` to the file input unconditionally and then calls
`showFile (fileInput.files[0])`.  With an empty list the assignment still
happens and `files[0]` is `undefined`, so `showFile` throws a `TypeError`
when it reads `file.size`; the second component records that error. -/
def p0_handleDrop (files : List FileData) (s : P0State) :
    P0State × Option String :=
  match files with
  | [] =>
      ({ s with fileInputFiles := [] },
        some "TypeError: file is undefined")
  | file :: rest =>
      (showFile file { s with fileInputFiles := file :: rest }, none)

/-- A part_000 page state in which a file has already been selected (used to
exhibit that an empty drop clobbers the selection there). -/
def p0_withSelection : P0State :=
  { fileInputFiles := [⟨"sample.csv", 2048⟩]
    selectedFileHTML := "<strong>sample.csv</strong> (2.00 KB)" }

/-- C3 (amended): a drop whose list is non-empty renders exactly the first
file's summary (name, formatted size, info shown, prompt hidden), but the
whole dropped list is assigned to the hidden file input, so files beyond the
first are retained in the form state rather than discarded; only the
displayed selection is limited to one file. -/
theorem drop_promotes_first_file (f : FileData) (rest : List FileData)
    (s : WidgetState) :
    (handleFiles (f :: rest) s).fileNameText = f.name ∧
    (handleFiles (f :: rest) s).fileSizeText = formatFileSize f.size ∧
    (handleFiles (f :: rest) s).fileInfoDisplay = "flex" ∧
    (handleFiles (f :: rest) s).uploadPromptDisplay = "none" ∧
    (handleFiles (f :: rest) s).fileInputFiles = f :: rest :=
  ⟨rfl, rfl, rfl, rfl, rfl⟩

/-- Counterexample to C3's "files beyond the first are silently ignored":
dropping two files does not leave the page in the state a one-file drop
produces — the second file stays in the file input. -/
theorem multi_drop_not_ignored :
    handleFiles [⟨"a.csv", 1024⟩, ⟨"b.csv", 2048⟩] initWidgetState ≠
      handleFiles [⟨"a.csv", 1024⟩] initWidgetState := by
  intro h
  have h2 := congrArg WidgetState.fileInputFiles h
  simp [handleFiles, updateFileInfo, initWidgetState] at h2

/-- C4: dropping zero files is a no-op for src/script.js's `handleFiles`; in
the src/unnamed/part_000 variant, however, the drop listener overwrites the
file input with the empty list (clobbering the prior selection) and throws a
`TypeError` dereferencing the missing first file. -/
theorem empty_drop_no_op (s : WidgetState) :
    handleFiles [] s = s ∧
    (p0_handleDrop [] p0_withSelection).1.fileInputFiles = [] ∧
    (p0_handleDrop [] p0_withSelection).2.isSome = true :=
  ⟨rfl, rfl, rfl⟩

/-- C6: the remove-file click stops propagation, empties the file input's
list, hides the file-info block, restores the upload prompt, and a subsequent
selection (via the picker's `change` event or a drop, with at least one file)
yields exactly the state the same selection yields on a fresh page load. -/
theorem removeSelection_resets (s : WidgetState) (f : FileData)
    (rest : List FileData) :
    (removeSelection s).2 = true ∧
    (removeSelection s).1.fileInputFiles = [] ∧
    (removeSelection s).1.fileInfoDisplay = "none" ∧
    (removeSelection s).1.uploadPromptDisplay = "block" ∧
    selectViaPicker (f :: rest) (removeSelection s).1 =
      selectViaPicker (f :: rest) initWidgetState ∧
    handleFiles (f :: rest) (removeSelection s).1 =
      handleFiles (f :: rest) initWidgetState :=
  ⟨rfl, rfl, rfl, rfl, rfl, rfl⟩

/-- C10: a drop with `n > 1` files assigns the entire dropped list — every
file, not only the first — to the hidden file input (in both variants), so
all of them would be carried into the form submission; only the rendered
summary is restricted to the first file. -/
theorem drop_assigns_whole_list (f : FileData) (rest : List FileData)
    (w : WidgetState) (t : P0State) :
    (handleFiles (f :: rest) w).fileInputFiles = f :: rest ∧
    (p0_handleDrop (f :: rest) t).1.fileInputFiles = f :: rest ∧
    (handleFiles (f :: rest) w).fileNameText = f.name ∧
    (handleFiles (f :: rest) w).fileSizeText = formatFileSize f.size ∧
    (p0_handleDrop (f :: rest) t).1.selectedFileHTML =
      "<strong>" ++ f.name ++ "</strong> ("
        ++ fixed2String (toFixed2 f.size 1024) ++ " KB)" :=
  ⟨rfl, rfl, rfl, rfl, rfl⟩

/-- The DOM fields of the submission part of the page touched by the submit
listener of src/script.js and its interval callback: the processing overlay's
display, the submit button's disabled flag, the closure variable `progress`,
the progress bar width (as the percent number written into its style), the
progress and processing texts, the running interval's delay (`none` before
any interval was started) and whether the interval id was stored in
`uploadForm.dataset.progressInterval`. -/
structure SubmitState where
  overlayDisplay : String
  submitDisabled : Bool
  progress : ℚ
  progressBarWidthPct : ℚ
  progressTextContent : String
  processingTextContent : String
  progressIntervalDelayMs : Option Nat
  datasetProgressInterval : Bool
  deriving DecidableEq

/-- Modelled from the spec: the fresh-page submission state (overlay hidden,
submit enabled, no interval running); the page's HTML is not under src/. -/
def initSubmitState : SubmitState :=
  { overlayDisplay := "none"
    submitDisabled := false
    progress := 0
    progressBarWidthPct := 0
    progressTextContent := ""
    processingTextContent := ""
    progressIntervalDelayMs := none
    datasetProgressInterval := false }

/-- `Math.round` for the nonnegative numbers the widget produces. -/
def jsRound (q : ℚ) : ℤ := ⌊q + 1 / 2⌋

/-- One tick's progress update in src/script.js:
`progress += Math.random() * 10; if (progress > 90) progress = 90;` — `r`
stands for the tick's `Math.random() * 10`. -/
def progressStep (p r : ℚ) : ℚ := if p + r > 90 then 90 else p + r

/-- The processing text the interval callback writes as a function of the
updated progress value: three phases split at 30 and 60. -/
def processingMessage (p : ℚ) : String :=
  if p < 30 then "Validating file format..."
  else if p < 60 then "Initializing AI agent..."
  else "Cleaning and enriching data..."

/-- The interval callback of the submit listener in src/script.js: updates
the progress value, the bar width, the percent text and the processing
text. -/
def progressTick (r : ℚ) (s : SubmitState) : SubmitState :=
  { s with
    progress := progressStep s.progress r
    progressBarWidthPct := progressStep s.progress r
    progressTextContent :=
      toString (jsRound (progressStep s.progress r)) ++ "% Complete"
    processingTextContent := processingMessage (progressStep s.progress r) }

/-- The submit listener of src/script.js: shows the processing overlay,
disables the submit button, resets the closure's `progress` to 0, starts a
`setInterval` with a fixed 500 ms delay and stores the interval id on the
form's dataset.  No code of the page ever calls `clearInterval`. -/
def onSubmit (s : SubmitState) : SubmitState :=
  { s with
    overlayDisplay := "flex"
    submitDisabled := true
    progress := 0
    progressIntervalDelayMs := some 500
    datasetProgressInterval := true }

/-- The trajectory of the closure's `progress` variable: the value before any
tick, then the value after each successive tick, for a given list of random
increments. -/
def progressTraceFrom (p : ℚ) : List ℚ → List ℚ
  | [] => [p]
  | r :: rs => p :: progressTraceFrom (progressStep p r) rs

lemma progressStep_le {p r : ℚ} (hp : p ≤ 90) (hr : 0 ≤ r) :
    p ≤ progressStep p r := by
  unfold progressStep
  split <;> linarith

lemma progressStep_le_90 (p r : ℚ) : progressStep p r ≤ 90 := by
  unfold progressStep
  split <;> linarith

/-- Every value along a progress trajectory started at `p ≤ 90` with
nonnegative increments stays between `p` and 90. -/
lemma progressTraceFrom_bounds (rs : List ℚ) (p : ℚ) (hp : p ≤ 90)
    (hr : ∀ r ∈ rs, 0 ≤ r) :
    ∀ q ∈ progressTraceFrom p rs, p ≤ q ∧ q ≤ 90 := by
  induction rs generalizing p with
  | nil =>
      intro q hq
      simp only [progressTraceFrom, List.mem_singleton] at hq
      subst hq
      exact ⟨le_refl _, hp⟩
  | cons r rs ih =>
      intro q hq
      simp only [progressTraceFrom, List.mem_cons] at hq
      rcases hq with rfl | hq
      · exact ⟨le_refl q, hp⟩
      · have hr0 : 0 ≤ r := hr r (List.mem_cons_self r rs)
        have hstep : p ≤ progressStep p r := progressStep_le hp hr0
        have h90 : progressStep p r ≤ 90 := progressStep_le_90 p r
        have := ih (progressStep p r) h90
          (fun x hx => hr x (List.mem_cons_of_mem r hx)) q hq
        exact ⟨le_trans hstep this.1, this.2⟩

/-- A progress trajectory started at `p ≤ 90` with nonnegative increments is
sorted: every later value is at least every earlier one. -/
lemma progressTraceFrom_pairwise (rs : List ℚ) (p : ℚ) (hp : p ≤ 90)
    (hr : ∀ r ∈ rs, 0 ≤ r) :
    List.Pairwise (· ≤ ·) (progressTraceFrom p rs) := by
  induction rs generalizing p with
  | nil => simp [progressTraceFrom]
  | cons r rs ih =>
      have hr0 : 0 ≤ r := hr r (List.mem_cons_self r rs)
      have h90 : progressStep p r ≤ 90 := progressStep_le_90 p r
      have htail : ∀ x ∈ rs, (0 : ℚ) ≤ x :=
        fun x hx => hr x (List.mem_cons_of_mem r hx)
      refine List.Pairwise.cons ?_ (ih (progressStep p r) h90 htail)
      intro q hq
      have := progressTraceFrom_bounds rs (progressStep p r) h90 htail q hq
      exact le_trans (progressStep_le hp hr0) this.1

/-- C2: for every run of the simulated progress sequence started by form
submission (the trajectory of `progress` from the 0 the submit listener sets,
under any list of nonnegative random increments), the progress value is
monotonically non-decreasing across ticks and never exceeds 90 — in
particular it never reaches 100 client-side. -/
theorem progress_monotone_capped (rs : List ℚ) (s : SubmitState)
    (hr : ∀ r ∈ rs, 0 ≤ r) :
    (onSubmit s).progress = 0 ∧
    (∀ r' t, (progressTick r' t).progress = progressStep t.progress r') ∧
    List.Pairwise (· ≤ ·) (progressTraceFrom (onSubmit s).progress rs) ∧
    ∀ q ∈ progressTraceFrom (onSubmit s).progress rs,
      0 ≤ q ∧ q ≤ 90 ∧ q < 100 := by
  refine ⟨rfl, fun r' t => rfl, ?_, ?_⟩
  · exact progressTraceFrom_pairwise rs 0 (by norm_num) hr
  · intro q hq
    have := progressTraceFrom_bounds rs 0 (by norm_num) hr q hq
    exact ⟨this.1, this.2, lt_of_le_of_lt this.2 (by norm_num)⟩

/-- Witness for `progress_monotone_capped` on the concrete increment list
`[5, 50, 50]` (the last tick overshoots and is capped at 90). -/
theorem progress_monotone_capped_witness :
    (onSubmit initSubmitState).progress = 0 ∧
    (∀ r' t, (progressTick r' t).progress = progressStep t.progress r') ∧
    List.Pairwise (· ≤ ·)
      (progressTraceFrom (onSubmit initSubmitState).progress [5, 50, 50]) ∧
    ∀ q ∈ progressTraceFrom (onSubmit initSubmitState).progress [5, 50, 50],
      0 ≤ q ∧ q ≤ 90 ∧ q < 100 :=
  progress_monotone_capped [5, 50, 50] initSubmitState (by norm_num)

/-- C5: the processing text the interval callback writes is a function of the
updated progress value with exactly three phases: "Validating file format..."
below 30, "Initializing AI agent..." from 30 up to (not including) 60, and
"Cleaning and enriching data..." from 60 on; the three texts are pairwise
distinct. -/
theorem processing_text_phases (r p : ℚ) (s : SubmitState) :
    (progressTick r s).processingTextContent =
      processingMessage (progressTick r s).progress ∧
    (p < 30 → processingMessage p = "Validating file format...") ∧
    (30 ≤ p → p < 60 → processingMessage p = "Initializing AI agent...") ∧
    (60 ≤ p → processingMessage p = "Cleaning and enriching data...") ∧
    ("Validating file format..." ≠ "Initializing AI agent..." ∧
      "Initializing AI agent..." ≠ "Cleaning and enriching data..." ∧
      "Validating file format..." ≠ "Cleaning and enriching data...") := by
  refine ⟨rfl, ?_, ?_, ?_, by decide, by decide, by decide⟩
  · intro h
    rw [processingMessage, if_pos h]
  · intro h1 h2
    rw [processingMessage, if_neg (not_lt.mpr h1), if_pos h2]
  · intro h
    rw [processingMessage, if_neg (not_lt.mpr (by linarith)),
      if_neg (not_lt.mpr h)]

/-- C7: the submit listener disables the submit control, reveals the
processing overlay, resets the progress value to 0 and starts a repeating
timer with the fixed 500 ms delay, storing its id on the form. -/
theorem onSubmit_effects (s : SubmitState) :
    (onSubmit s).submitDisabled = true ∧
    (onSubmit s).overlayDisplay = "flex" ∧
    (onSubmit s).progress = 0 ∧
    (onSubmit s).progressIntervalDelayMs = some 500 ∧
    (onSubmit s).datasetProgressInterval = true :=
  ⟨rfl, rfl, rfl, rfl, rfl⟩

/-- The events the page's client code reacts to (drag highlighting is purely
cosmetic and touches neither record): a drop, a file-picker change, a click
on the remove-file button, a form submission, and one firing of the progress
interval.  These are all the listeners of src/script.js that read or write
`WidgetState` or `SubmitState`; none of them — and no other code of the page
— ever calls `clearInterval`. -/
inductive PageEvent where
  | drop (files : List FileData)
  | change (files : List FileData)
  | removeClick
  | submit
  | tick (r : ℚ)

/-- One event's effect on the page state. -/
def pageStep : PageEvent → WidgetState × SubmitState → WidgetState × SubmitState
  | .drop files, (w, s) => (handleFiles files w, s)
  | .change files, (w, s) => (selectViaPicker files w, s)
  | .removeClick, (w, s) => ((removeSelection w).1, s)
  | .submit, (w, s) => (w, onSubmit s)
  | .tick r, (w, s) => (w, progressTick r s)

/-- A whole event sequence's effect on the page state. -/
def runPage (es : List PageEvent) (st : WidgetState × SubmitState) :
    WidgetState × SubmitState :=
  es.foldl (fun t e => pageStep e t) st

lemma runPage_interval_kept (es : List PageEvent)
    (st : WidgetState × SubmitState)
    (h1 : st.2.progressIntervalDelayMs = some 500)
    (h2 : st.2.datasetProgressInterval = true) :
    (runPage es st).2.progressIntervalDelayMs = some 500 ∧
    (runPage es st).2.datasetProgressInterval = true := by
  induction es generalizing st with
  | nil => exact ⟨h1, h2⟩
  | cons e es ih =>
      have hfold : runPage (e :: es) st = runPage es (pageStep e st) := rfl
      rw [hfold]
      apply ih
      · cases e <;> rcases st with ⟨w, s⟩ <;>
          simp [pageStep, onSubmit, progressTick, h1] <;> exact h1
      · cases e <;> rcases st with ⟨w, s⟩ <;>
          simp [pageStep, onSubmit, progressTick, h2] <;> exact h2

/-- C8: once the submit listener has run, the interval handle is stored on
the form and the interval stays running (its delay stays `some 500`) after
every further sequence of client events — no client code path ever clears
it. -/
theorem interval_never_cleared (es : List PageEvent) (w : WidgetState)
    (s : SubmitState) :
    (onSubmit s).datasetProgressInterval = true ∧
    (onSubmit s).progressIntervalDelayMs = some 500 ∧
    (runPage es (w, onSubmit s)).2.progressIntervalDelayMs = some 500 ∧
    (runPage es (w, onSubmit s)).2.datasetProgressInterval = true := by
  have h := runPage_interval_kept es (w, onSubmit s) rfl rfl
  exact ⟨rfl, rfl, h.1, h.2⟩
